import Mathlib

/-!
Verification of the shopping-list store and its tool adapters.

The definitions below are a shallow embedding of
`src/shopping-list/src/client.py` (class `ShoppingListClient`),
`src/shopping-list/src/validators.py` (class `ShoppingListValidator`),
`src/shopping-list/src/exceptions.py`, and the tool boundary in
`src/shopping-list/src/tools.py`.

Python integers are modelled as `Int`; prices (Python floats that are
exact short decimals in the seed catalog) as `ℚ`; the mutable dicts
`self.shopping_lists` and `self.items` as association lists in
insertion order; exceptions as an error type threaded through
`Except`, with the state after the raise returned alongside so that
side effects performed before a raise (the lazy creation of an empty
list inside `get_shopping_list`) are kept, exactly as in the source.
-/

/-- A line item `{sku, quantity}` of a shopping list (client.py). -/
structure LineItem where
  sku : Int
  quantity : Int
deriving DecidableEq, Repr

/-- A shopping list `{list_id, items}` (client.py, `get_shopping_list`). -/
structure ShoppingList where
  list_id : Int
  items : List LineItem
deriving DecidableEq, Repr

/-- A catalog item `{sku, item_name, unit_price}` (client.py, `self.items`). -/
structure CatalogItem where
  sku : Int
  item_name : String
  unit_price : ℚ
deriving DecidableEq, Repr

/-- The error taxonomy of exceptions.py as observed by the tool boundary:
`ValidationError` (including its subclasses `InvalidQuantityError` and
`InvalidSkuError`) and `ItemNotFoundError`.  Every raise site in
client.py and validators.py constructs the exception with the default
`error_code=None`, so the embedded errors carry only the message. -/
inductive SLError where
  | validationError (msg : String)
  | itemNotFoundError (msg : String)
deriving DecidableEq, Repr

/-- The `error_code` attribute of a raised exception: every raise site in
client.py / validators.py leaves it at the constructor default `None`. -/
def SLError.error_code : SLError → Option String := fun _ => none

/-- The message carried by an exception (`str(e)` in the handlers). -/
def SLError.message : SLError → String
  | .validationError m => m
  | .itemNotFoundError m => m

/-- Mutable state of a `ShoppingListClient` instance: the per-customer
lists dict and the catalog dict, both as insertion-ordered association
lists. -/
structure ClientState where
  shopping_lists : List (Int × ShoppingList)
  items : List (Int × CatalogItem)
deriving DecidableEq, Repr

/-- Dict lookup `d.get(k)` / `d[k]` on an association list. -/
def lookupAssoc {α : Type} (l : List (Int × α)) (k : Int) : Option α :=
  match l with
  | [] => none
  | (k2, v) :: rest => if k2 = k then some v else lookupAssoc rest k

/-- Dict store `d[k] = v`: overwrite the first binding of `k` in place,
or append a new binding at the end (Python dicts keep insertion order). -/
def setAssoc {α : Type} (l : List (Int × α)) (k : Int) (v : α) : List (Int × α) :=
  match l with
  | [] => [(k, v)]
  | (k2, v2) :: rest => if k2 = k then (k, v) :: rest else (k2, v2) :: setAssoc rest k v

/-- The seed catalog of `ShoppingListClient.__init__` (client.py). -/
def initialCatalog : List (Int × CatalogItem) :=
  [ (101, ⟨101, "Apple", 7/2⟩)
  , (102, ⟨102, "Bread", 5⟩)
  , (103, ⟨103, "Milk", 14/5⟩)
  , (104, ⟨104, "Eggs", 21/5⟩)
  , (105, ⟨105, "Chicken Breast", 17/2⟩)
  , (106, ⟨106, "Pasta", 3⟩)
  , (107, ⟨107, "Tomatoes", 5/2⟩) ]

/-- The state of a freshly constructed `ShoppingListClient`:
`self.shopping_lists = {}` and the seed catalog. -/
def initialClientState : ClientState :=
  { shopping_lists := [], items := initialCatalog }

/-- `ShoppingListValidator.validate_sku` (validators.py): a SKU must be a
positive integer. -/
def validate_sku (sku : Int) : Except SLError Unit :=
  if sku ≤ 0 then .error (.validationError "SKU must be a positive integer") else .ok ()

/-- `ShoppingListValidator.validate_quantity` (validators.py): a quantity
must be a non-negative integer. -/
def validate_quantity (q : Int) : Except SLError Unit :=
  if q < 0 then .error (.validationError "Quantity cannot be negative") else .ok ()

/-- `ShoppingListValidator.validate_customer_id` (validators.py): the id
must parse as an integer that is not negative.  With an integer argument
the `int()` parse always succeeds, leaving only the sign check. -/
def validate_customer_id (c : Int) : Except SLError Unit :=
  if c < 0 then .error (.validationError "Customer ID must be a positive integer") else .ok ()

/-- `ShoppingListValidator.validate_operation` (validators.py). -/
def validate_operation (op : String) : Except SLError Unit :=
  if op = "add" ∨ op = "remove" ∨ op = "set" then .ok ()
  else .error (.validationError "Operation must be one of: add, remove, set")

/-- `ShoppingListClient.format_currency` composed with the `float(...)`
re-parse done by `get_item_info`: format to two decimal places and read
the value back.  On the seed prices (exact multiples of 1/10) this is
exact, so the rounding mode is never engaged. -/
def format_currency (v : ℚ) : ℚ := (round (v * 100) : ℚ) / 100

/-- `ShoppingListClient.get_shopping_list` (client.py): validate the
customer id, create `{list_id: customer_id, items: []}` on first access,
return the stored list.  The state is returned alongside in every case;
on the error path nothing has mutated yet. -/
def get_shopping_list (st : ClientState) (customer_id : Int) :
    Except SLError ShoppingList × ClientState :=
  if customer_id < 0 then (.error (.validationError "Invalid customer ID"), st)
  else match lookupAssoc st.shopping_lists customer_id with
    | some sl => (.ok sl, st)
    | none =>
      let sl : ShoppingList := { list_id := customer_id, items := [] }
      (.ok sl, { st with shopping_lists := setAssoc st.shopping_lists customer_id sl })

/-- `ShoppingListClient.get_item_info` (client.py): validate the SKU,
look up the catalog, fail with `ItemNotFoundError` when absent, otherwise
write the 2-decimal-normalized price back into the catalog entry and
return it. -/
def get_item_info (st : ClientState) (sku : Int) :
    Except SLError CatalogItem × ClientState :=
  match validate_sku sku with
  | .error e => (.error e, st)
  | .ok _ =>
    match lookupAssoc st.items sku with
    | none => (.error (.itemNotFoundError ("Item with SKU " ++ toString sku ++ " not found")), st)
    | some item =>
      let item2 := { item with unit_price := format_currency item.unit_price }
      (.ok item2, { st with items := setAssoc st.items sku item2 })

/-- `next((item for item in items if item['sku'] == sku), None)`:
first line item of the list with the given SKU. -/
def findItem (items : List LineItem) (sku : Int) : Option LineItem :=
  match items with
  | [] => none
  | it :: rest => if it.sku = sku then some it else findItem rest sku

/-- `existing_item['quantity'] = q`: in-place update of the first line
item with the given SKU, keeping its position. -/
def replaceQtyFirst (items : List LineItem) (sku : Int) (q : Int) : List LineItem :=
  match items with
  | [] => []
  | it :: rest =>
    if it.sku = sku then { it with quantity := q } :: rest
    else it :: replaceQtyFirst rest sku q

/-- `items.remove(existing_item)`: removes the first element equal to
`existing_item`.  `existing_item` is the first item with the given SKU
and equality includes the SKU, so this removes exactly that item. -/
def removeFirstSku (items : List LineItem) (sku : Int) : List LineItem :=
  match items with
  | [] => []
  | it :: rest => if it.sku = sku then rest else it :: removeFirstSku rest sku

/-- The add/remove/set branch block of `ShoppingListClient.update_list`
(client.py) acting on the items of the fetched list.  Inputs have
already been validated and the SKU confirmed in the catalog. -/
def applyOperation (items : List LineItem) (sku quantity : Int) (operation : String) :
    Except SLError (List LineItem) :=
  if operation = "add" then
    match findItem items sku with
    | none => .ok (items ++ [{ sku := sku, quantity := quantity }])
    | some existing =>
      let new_quantity := existing.quantity + quantity
      match validate_quantity new_quantity with
      | .error e => .error e
      | .ok _ => .ok (replaceQtyFirst items sku new_quantity)
  else if operation = "remove" then
    match findItem items sku with
    | none => .error (.itemNotFoundError
        ("Cannot remove - item with SKU " ++ toString sku ++ " not found in list"))
    | some existing =>
      if existing.quantity < quantity then
        .error (.validationError
          ("Cannot remove " ++ toString quantity ++ " - only "
            ++ toString existing.quantity ++ " available"))
      else
        let new_quantity := existing.quantity - quantity
        if 0 < new_quantity then .ok (replaceQtyFirst items sku new_quantity)
        else .ok (removeFirstSku items sku)
  else if operation = "set" then
    if 0 < quantity then
      match findItem items sku with
      | some _ => .ok (replaceQtyFirst items sku quantity)
      | none => .ok (items ++ [{ sku := sku, quantity := quantity }])
    else
      match findItem items sku with
      | some _ => .ok (removeFirstSku items sku)
      | none => .ok items
  else
    .ok items

/-- `ShoppingListClient.update_list` (client.py): validate SKU, quantity
and operation, check the SKU against the catalog, fetch (lazily
creating) the customer's list, apply the operation to its items in
place, and return the mutated list.  On every error path the state at
the moment of the raise is returned: in particular an empty list created
by the inner `get_shopping_list` call persists. -/
def update_list (st : ClientState) (sku quantity customer_id : Int) (operation : String) :
    Except SLError ShoppingList × ClientState :=
  match validate_sku sku with
  | .error e => (.error e, st)
  | .ok _ =>
  match validate_quantity quantity with
  | .error e => (.error e, st)
  | .ok _ =>
  if ¬(operation = "add" ∨ operation = "remove" ∨ operation = "set") then
    (.error (.validationError "Operation must be 'add', 'remove', or 'set'"), st)
  else
  match lookupAssoc st.items sku with
  | none => (.error (.itemNotFoundError ("Item with SKU " ++ toString sku ++ " not found")), st)
  | some _ =>
  match get_shopping_list st customer_id with
  | (.error e, st1) => (.error e, st1)
  | (.ok sl, st1) =>
    match applyOperation sl.items sku quantity operation with
    | .error e => (.error e, st1)
    | .ok newItems =>
      let sl2 : ShoppingList := { list_id := sl.list_id, items := newItems }
      (.ok sl2, { st1 with shopping_lists := setAssoc st1.shopping_lists customer_id sl2 })

/-- The observable contents of a customer's list: the stored items, or
the empty list a first `get_shopping_list` access would create. -/
def customerItems (st : ClientState) (c : Int) : List LineItem :=
  match lookupAssoc st.shopping_lists c with
  | some sl => sl.items
  | none => []

/-- The quantity stored for a SKU in a list of items, when present. -/
def findQty (items : List LineItem) (sku : Int) : Option Int :=
  match findItem items sku with
  | some it => some it.quantity
  | none => none

/-- The client states reachable from a fresh `ShoppingListClient` by any
sequence of `get_shopping_list`, `get_item_info` and `update_list`
calls with arbitrary integer arguments and arbitrary operation string. -/
inductive Reach : ClientState → Prop where
  | init : Reach initialClientState
  | getList (st : ClientState) (c : Int) :
      Reach st → Reach (get_shopping_list st c).2
  | getItem (st : ClientState) (s : Int) :
      Reach st → Reach (get_item_info st s).2
  | update (st : ClientState) (sku q c : Int) (op : String) :
      Reach st → Reach (update_list st sku q c op).2

/-- Result of a tool `forward` call (tools.py): either the plain-data
success payload, or the data-shaped error dict
`{error: message, error_code: code}` built by the except handlers
(the code entry is `Option` since `e.error_code` can be `None`). -/
inductive ToolOutcome (α : Type) where
  | ok (value : α)
  | err (message : String) (error_code : Option String)
deriving DecidableEq, Repr

/-- `GetShoppingListTool.forward` (tools.py): validate the customer id,
fetch the list from the shared client, extract `{list_id, items}` (the
identity on this payload).  A `ShoppingListError` is converted to
`{error: str(e), error_code: e.error_code}`; no raise site sets a code,
so the code entry is always `None` here. -/
def getShoppingListTool_forward (st : ClientState) (customer_id : Int) :
    ToolOutcome ShoppingList × ClientState :=
  match validate_customer_id customer_id with
  | .error e => (.err e.message e.error_code, st)
  | .ok _ =>
    match get_shopping_list st customer_id with
    | (.ok sl, st1) => (.ok sl, st1)
    | (.error e, st1) => (.err e.message e.error_code, st1)

/-- The success payload of `UpdateListTool.forward` (tools.py):
`{status, message, list, item}` where `item` is the line item matching
the SKU in the updated list, if any. -/
structure UpdateResult where
  status : String
  message : String
  list : ShoppingList
  item : Option LineItem
deriving DecidableEq, Repr

/-- The machine-readable code `UpdateListTool.forward` attaches to an
exception, by the order of its except clauses: `ValidationError` (and
subclasses) to VALIDATION_ERROR, `ItemNotFoundError` to ITEM_NOT_FOUND. -/
def toolErrorCode : SLError → Option String
  | .validationError _ => some "VALIDATION_ERROR"
  | .itemNotFoundError _ => some "ITEM_NOT_FOUND"

/-- `UpdateListTool.forward` (tools.py): validate quantity and
operation, fetch the current list, run the tool's own pre-checks for
`remove` (item must exist, quantity must be positive), then call the
client's `update_list` and wrap the result; exceptions become
`{error, error_code}` results. -/
def updateListTool_forward (st : ClientState) (sku quantity customer_id : Int)
    (operation : String) : ToolOutcome UpdateResult × ClientState :=
  match validate_quantity quantity with
  | .error e => (.err e.message (toolErrorCode e), st)
  | .ok _ =>
  match validate_operation operation with
  | .error e => (.err e.message (toolErrorCode e), st)
  | .ok _ =>
  match get_shopping_list st customer_id with
  | (.error e, st1) => (.err e.message (toolErrorCode e), st1)
  | (.ok current_list, st1) =>
    let item_exists := (findItem current_list.items sku).isSome
    if operation = "remove" ∧ item_exists = false then
      (.err ("Item with SKU " ++ toString sku ++ " not found in list")
        (some "ITEM_NOT_FOUND"), st1)
    else if operation = "remove" ∧ quantity ≤ 0 then
      (.err "Quantity must be positive for removal" (some "VALIDATION_ERROR"), st1)
    else
      match update_list st1 sku quantity customer_id operation with
      | (.error e, st2) => (.err e.message (toolErrorCode e), st2)
      | (.ok updated_list, st2) =>
        (.ok { status := "success", message := "Shopping list updated",
               list := updated_list,
               item := findItem updated_list.items sku }, st2)

/-! ### Association-list and line-item lemmas -/

theorem lookupAssoc_setAssoc {α : Type} (l : List (Int × α)) (k : Int) (v : α) (k' : Int) :
    lookupAssoc (setAssoc l k v) k' = if k = k' then some v else lookupAssoc l k' := by
  induction l with
  | nil => by_cases h : k = k' <;> simp [setAssoc, lookupAssoc, h]
  | cons hd tl ih =>
    obtain ⟨k2, v2⟩ := hd
    by_cases h2 : k2 = k
    · subst h2
      by_cases h : k2 = k' <;> simp [setAssoc, lookupAssoc, h]
    · by_cases h : k2 = k'
      · subst h
        have : ¬ k = k2 := fun hh => h2 hh.symm
        simp [setAssoc, lookupAssoc, h2, this]
      · simp [setAssoc, lookupAssoc, h2, h, ih]

theorem setAssoc_setAssoc {α : Type} (l : List (Int × α)) (k : Int) (v w : α) :
    setAssoc (setAssoc l k v) k w = setAssoc l k w := by
  induction l with
  | nil => simp [setAssoc]
  | cons hd tl ih =>
    obtain ⟨k2, v2⟩ := hd
    by_cases h2 : k2 = k
    · simp [setAssoc, h2]
    · simp [setAssoc, h2, ih]

theorem setAssoc_of_lookup_eq {α : Type} (l : List (Int × α)) (k : Int) (v : α)
    (h : lookupAssoc l k = some v) : setAssoc l k v = l := by
  induction l with
  | nil => simp [lookupAssoc] at h
  | cons hd tl ih =>
    obtain ⟨k2, v2⟩ := hd
    by_cases h2 : k2 = k
    · subst h2
      simp [lookupAssoc] at h
      simp [setAssoc, h]
    · simp [lookupAssoc, h2] at h
      simp [setAssoc, h2, ih h]

theorem findItem_append_of_none (items : List LineItem) (s : Int) (it : LineItem)
    (h : findItem items s = none) (hs : it.sku = s) :
    findItem (items ++ [it]) s = some it := by
  induction items with
  | nil => simp [findItem, hs]
  | cons hd tl ih =>
    by_cases h2 : hd.sku = s
    · simp [findItem, h2] at h
    · simp [findItem, h2] at h ⊢
      exact ih h

theorem replaceQtyFirst_of_none (items : List LineItem) (s q : Int)
    (h : findItem items s = none) : replaceQtyFirst items s q = items := by
  induction items with
  | nil => simp [replaceQtyFirst]
  | cons hd tl ih =>
    by_cases h2 : hd.sku = s
    · simp [findItem, h2] at h
    · simp [findItem, h2] at h
      simp [replaceQtyFirst, h2, ih h]

theorem removeFirstSku_of_none (items : List LineItem) (s : Int)
    (h : findItem items s = none) : removeFirstSku items s = items := by
  induction items with
  | nil => simp [removeFirstSku]
  | cons hd tl ih =>
    by_cases h2 : hd.sku = s
    · simp [findItem, h2] at h
    · simp [findItem, h2] at h
      simp [removeFirstSku, h2, ih h]

theorem findItem_replaceQtyFirst (items : List LineItem) (s q : Int) :
    findItem (replaceQtyFirst items s q) s
      = (findItem items s).map (fun it => { it with quantity := q }) := by
  induction items with
  | nil => simp [findItem, replaceQtyFirst]
  | cons hd tl ih =>
    by_cases h2 : hd.sku = s
    · simp [findItem, replaceQtyFirst, h2]
    · simp [findItem, replaceQtyFirst, h2, ih]

theorem replaceQtyFirst_replaceQtyFirst (items : List LineItem) (s q1 q2 : Int) :
    replaceQtyFirst (replaceQtyFirst items s q1) s q2 = replaceQtyFirst items s q2 := by
  induction items with
  | nil => simp [replaceQtyFirst]
  | cons hd tl ih =>
    by_cases h2 : hd.sku = s
    · simp [replaceQtyFirst, h2]
    · simp [replaceQtyFirst, h2, ih]

theorem replaceQtyFirst_append_of_none (items : List LineItem) (s q q' : Int)
    (h : findItem items s = none) :
    replaceQtyFirst (items ++ [{ sku := s, quantity := q }]) s q'
      = items ++ [{ sku := s, quantity := q' }] := by
  induction items with
  | nil => simp [replaceQtyFirst]
  | cons hd tl ih =>
    by_cases h2 : hd.sku = s
    · simp [findItem, h2] at h
    · simp [findItem, h2] at h
      simp [replaceQtyFirst, h2, ih h]

theorem replaceQtyFirst_self (items : List LineItem) (s : Int) (ex : LineItem)
    (h : findItem items s = some ex) :
    replaceQtyFirst items s ex.quantity = items := by
  induction items with
  | nil => simp [findItem] at h
  | cons hd tl ih =>
    by_cases h2 : hd.sku = s
    · obtain ⟨sk, qt⟩ := hd
      simp at h2
      subst h2
      simp [findItem] at h
      simp [replaceQtyFirst, ← h]
    · simp [findItem, h2] at h
      simp [replaceQtyFirst, h2, ih h]

theorem mem_replaceQtyFirst (items : List LineItem) (s q : Int) (it : LineItem)
    (h : it ∈ replaceQtyFirst items s q) : it ∈ items ∨ it.quantity = q := by
  induction items with
  | nil => simp [replaceQtyFirst] at h
  | cons hd tl ih =>
    by_cases h2 : hd.sku = s
    · simp [replaceQtyFirst, h2] at h
      rcases h with h | h
      · right; rw [h]
      · left; exact List.mem_cons_of_mem _ h
    · simp [replaceQtyFirst, h2] at h
      rcases h with h | h
      · left; simp [h]
      · rcases ih h with h3 | h3
        · left; exact List.mem_cons_of_mem _ h3
        · right; exact h3

theorem mem_removeFirstSku (items : List LineItem) (s : Int) (it : LineItem)
    (h : it ∈ removeFirstSku items s) : it ∈ items := by
  induction items with
  | nil => simp [removeFirstSku] at h
  | cons hd tl ih =>
    by_cases h2 : hd.sku = s
    · simp [removeFirstSku, h2] at h
      exact List.mem_cons_of_mem _ h
    · simp [removeFirstSku, h2] at h
      rcases h with h | h
      · simp [h]
      · exact List.mem_cons_of_mem _ (ih h)

/-! ### Characterizations of the store operations -/

theorem get_shopping_list_neg (st : ClientState) (c : Int) (hc : c < 0) :
    get_shopping_list st c = (.error (.validationError "Invalid customer ID"), st) := by
  simp [get_shopping_list, hc]

theorem get_shopping_list_of_some (st : ClientState) (c : Int) (sl : ShoppingList)
    (hc : 0 ≤ c) (h : lookupAssoc st.shopping_lists c = some sl) :
    get_shopping_list st c = (.ok sl, st) := by
  simp [get_shopping_list, not_lt.mpr hc, h]

theorem get_shopping_list_of_none (st : ClientState) (c : Int)
    (hc : 0 ≤ c) (h : lookupAssoc st.shopping_lists c = none) :
    get_shopping_list st c =
      (.ok ⟨c, []⟩, ⟨setAssoc st.shopping_lists c ⟨c, []⟩, st.items⟩) := by
  simp [get_shopping_list, not_lt.mpr hc, h]

theorem customerItems_get_shopping_list (st : ClientState) (c d : Int) :
    customerItems (get_shopping_list st c).2 d = customerItems st d := by
  unfold get_shopping_list
  by_cases hc : c < 0
  · simp [hc]
  · simp [hc]
    cases hl : lookupAssoc st.shopping_lists c with
    | some sl => simp
    | none =>
      simp only [customerItems, lookupAssoc_setAssoc]
      by_cases hdc : c = d
      · subst hdc; simp [hl]
      · simp [hdc]

theorem update_list_eq (st : ClientState) (sku q c : Int) (op : String)
    (item : CatalogItem)
    (hs : 0 < sku) (hq : 0 ≤ q)
    (hop : op = "add" ∨ op = "remove" ∨ op = "set")
    (hcat : lookupAssoc st.items sku = some item) :
    update_list st sku q c op =
      (match get_shopping_list st c with
      | (.error e, st1) => (.error e, st1)
      | (.ok sl, st1) =>
        match applyOperation sl.items sku q op with
        | .error e => (.error e, st1)
        | .ok newItems =>
          (.ok ⟨sl.list_id, newItems⟩,
            ⟨setAssoc st1.shopping_lists c ⟨sl.list_id, newItems⟩, st1.items⟩)) := by
  have h1 : validate_sku sku = .ok () := by simp [validate_sku, not_le.mpr hs]
  have h2 : validate_quantity q = .ok () := by simp [validate_quantity, not_lt.mpr hq]
  simp [update_list, h1, h2, hop, hcat]

theorem update_list_error_state (st : ClientState) (sku q c : Int) (op : String)
    (e : SLError) (st' : ClientState)
    (h : update_list st sku q c op = (.error e, st')) :
    ∀ d, customerItems st' d = customerItems st d := by
  unfold update_list at h
  split at h
  · cases h; intro d; rfl
  split at h
  · cases h; intro d; rfl
  split at h
  · cases h; intro d; rfl
  split at h
  · cases h; intro d; rfl
  split at h
  · rename_i e1 st1 heq
    cases h
    intro d
    have h5 := customerItems_get_shopping_list st c d
    rw [heq] at h5
    exact h5
  · rename_i sl st1 heq
    split at h
    · cases h
      intro d
      have h5 := customerItems_get_shopping_list st c d
      rw [heq] at h5
      exact h5
    · simp at h

theorem update_list_ok_lookup (st : ClientState) (sku q c : Int) (op : String)
    (sl2 : ShoppingList) (st' : ClientState)
    (h : update_list st sku q c op = (.ok sl2, st')) :
    lookupAssoc st'.shopping_lists c = some sl2 := by
  unfold update_list at h
  split at h
  · simp at h
  split at h
  · simp at h
  split at h
  · simp at h
  split at h
  · simp at h
  split at h
  · simp at h
  · rename_i sl st1 heq
    split at h
    · simp at h
    · rename_i newItems ha
      cases h
      simp [lookupAssoc_setAssoc]

/-! ### Reductions of applyOperation per operation -/

theorem validate_quantity_ok (q : Int) (u : Unit) (h : validate_quantity q = .ok u) :
    0 ≤ q := by
  unfold validate_quantity at h
  split at h
  · simp at h
  · rename_i h2; exact not_lt.mp h2

theorem findItem_mem (items : List LineItem) (s : Int) (ex : LineItem)
    (h : findItem items s = some ex) : ex ∈ items := by
  induction items with
  | nil => simp [findItem] at h
  | cons hd tl ih =>
    by_cases h2 : hd.sku = s
    · simp [findItem, h2] at h
      simp [h]
    · simp [findItem, h2] at h
      exact List.mem_cons_of_mem _ (ih h)

theorem findItem_sku (items : List LineItem) (s : Int) (ex : LineItem)
    (h : findItem items s = some ex) : ex.sku = s := by
  induction items with
  | nil => simp [findItem] at h
  | cons hd tl ih =>
    by_cases h2 : hd.sku = s
    · simp [findItem, h2] at h
      rw [← h]; exact h2
    · simp [findItem, h2] at h
      exact ih h

theorem findItem_eq_none (items : List LineItem) (s : Int)
    (h : ∀ it ∈ items, it.sku ≠ s) : findItem items s = none := by
  induction items with
  | nil => rfl
  | cons hd tl ih =>
    have h2 : hd.sku ≠ s := h hd (List.mem_cons_self hd tl)
    simp [findItem, h2]
    exact ih (fun it hit => h it (List.mem_cons_of_mem _ hit))

theorem not_mem_of_findItem_none (items : List LineItem) (s : Int)
    (h : findItem items s = none) : ∀ it ∈ items, it.sku ≠ s := by
  induction items with
  | nil => simp
  | cons hd tl ih =>
    by_cases h2 : hd.sku = s
    · simp [findItem, h2] at h
    · simp [findItem, h2] at h
      intro it hit
      rcases List.mem_cons.mp hit with h3 | h3
      · rw [h3]; exact h2
      · exact ih h it h3

theorem applyOperation_add_none (items : List LineItem) (s q : Int)
    (h : findItem items s = none) :
    applyOperation items s q "add" = .ok (items ++ [{ sku := s, quantity := q }]) := by
  simp [applyOperation, h]

theorem applyOperation_add_some (items : List LineItem) (s q : Int) (ex : LineItem)
    (h : findItem items s = some ex) :
    applyOperation items s q "add" =
      (if ex.quantity + q < 0 then .error (.validationError "Quantity cannot be negative")
       else .ok (replaceQtyFirst items s (ex.quantity + q))) := by
  by_cases hneg : ex.quantity + q < 0 <;>
    simp [applyOperation, h, validate_quantity, hneg]

theorem applyOperation_remove_none (items : List LineItem) (s q : Int)
    (h : findItem items s = none) :
    applyOperation items s q "remove" = .error (.itemNotFoundError
      ("Cannot remove - item with SKU " ++ toString s ++ " not found in list")) := by
  simp [applyOperation, h]

theorem applyOperation_remove_some (items : List LineItem) (s q : Int) (ex : LineItem)
    (h : findItem items s = some ex) :
    applyOperation items s q "remove" =
      (if ex.quantity < q then
        .error (.validationError ("Cannot remove " ++ toString q ++ " - only "
          ++ toString ex.quantity ++ " available"))
       else if 0 < ex.quantity - q then .ok (replaceQtyFirst items s (ex.quantity - q))
       else .ok (removeFirstSku items s)) := by
  simp [applyOperation, h]

theorem applyOperation_set_pos (items : List LineItem) (s q : Int) (hq : 0 < q) :
    applyOperation items s q "set" =
      .ok (match findItem items s with
           | some _ => replaceQtyFirst items s q
           | none => items ++ [{ sku := s, quantity := q }]) := by
  cases hf : findItem items s <;> simp [applyOperation, hq, hf]

theorem applyOperation_set_nonpos (items : List LineItem) (s q : Int) (hq : q ≤ 0) :
    applyOperation items s q "set" =
      .ok (match findItem items s with
           | some _ => removeFirstSku items s
           | none => items) := by
  cases hf : findItem items s <;> simp [applyOperation, not_lt.mpr hq, hf]

/-! ### Invariants of reachable states -/

theorem get_item_info_shopping_lists (st : ClientState) (s : Int) :
    (get_item_info st s).2.shopping_lists = st.shopping_lists := by
  unfold get_item_info
  split
  · rfl
  · split
    · rfl
    · rfl

theorem get_shopping_list_ok_items (st : ClientState) (c : Int) (sl : ShoppingList)
    (st1 : ClientState) (h : get_shopping_list st c = (.ok sl, st1)) :
    sl.items = customerItems st c := by
  unfold get_shopping_list at h
  split at h
  · simp at h
  split at h
  · rename_i sl2 heq
    cases h
    simp [customerItems, heq]
  · rename_i heq
    cases h
    simp [customerItems, heq]

/-- Each stored list's `list_id` is the customer id it is stored under. -/
def ListIdInv (st : ClientState) : Prop :=
  ∀ c sl, lookupAssoc st.shopping_lists c = some sl → sl.list_id = c

theorem get_shopping_list_ok_listid (st : ClientState) (c : Int) (sl : ShoppingList)
    (st1 : ClientState) (hinv : ListIdInv st) (h : get_shopping_list st c = (.ok sl, st1)) :
    sl.list_id = c := by
  unfold get_shopping_list at h
  split at h
  · simp at h
  split at h
  · rename_i sl2 heq
    cases h
    exact hinv c sl heq
  · cases h
    rfl

theorem listIdInv_get_shopping_list (st : ClientState) (c : Int) (hinv : ListIdInv st) :
    ListIdInv (get_shopping_list st c).2 := by
  unfold get_shopping_list
  split
  · exact hinv
  split
  · exact hinv
  · intro d sl hd
    simp only [lookupAssoc_setAssoc] at hd
    by_cases hcd : c = d
    · subst hcd
      simp at hd
      rw [← hd]
    · rw [if_neg hcd] at hd
      exact hinv d sl hd

theorem listIdInv_get_item_info (st : ClientState) (s : Int) (hinv : ListIdInv st) :
    ListIdInv (get_item_info st s).2 := by
  intro d sl hd
  rw [get_item_info_shopping_lists] at hd
  exact hinv d sl hd

theorem listIdInv_update_list (st : ClientState) (sku q c : Int) (op : String)
    (hinv : ListIdInv st) : ListIdInv (update_list st sku q c op).2 := by
  unfold update_list
  split
  · exact hinv
  split
  · exact hinv
  split
  · exact hinv
  split
  · exact hinv
  split
  · rename_i e st1 heq
    have h2 := listIdInv_get_shopping_list st c hinv
    rw [heq] at h2
    exact h2
  · rename_i sl st1 heq
    split
    · have h2 := listIdInv_get_shopping_list st c hinv
      rw [heq] at h2
      exact h2
    · rename_i newItems ha
      intro d sl2 hd
      simp only [lookupAssoc_setAssoc] at hd
      by_cases hcd : c = d
      · subst hcd
        simp at hd
        rw [← hd]
        exact get_shopping_list_ok_listid st c sl st1 hinv heq
      · rw [if_neg hcd] at hd
        have h2 := listIdInv_get_shopping_list st c hinv
        rw [heq] at h2
        exact h2 d sl2 hd

theorem reach_listIdInv (st : ClientState) (h : Reach st) : ListIdInv st := by
  induction h with
  | init => intro c sl h2; simp [initialClientState, lookupAssoc] at h2
  | getList st c _ ih => exact listIdInv_get_shopping_list st c ih
  | getItem st s _ ih => exact listIdInv_get_item_info st s ih
  | update st sku q c op _ ih => exact listIdInv_update_list st sku q c op ih

/-- Every stored line item has a non-negative quantity. -/
def QtyNonneg (st : ClientState) : Prop :=
  ∀ c : Int, ∀ it ∈ customerItems st c, 0 ≤ it.quantity

theorem applyOperation_nonneg (items : List LineItem) (s q : Int) (op : String)
    (newItems : List LineItem) (hq : 0 ≤ q)
    (hitems : ∀ it ∈ items, 0 ≤ it.quantity)
    (h : applyOperation items s q op = .ok newItems) :
    ∀ it ∈ newItems, 0 ≤ it.quantity := by
  unfold applyOperation at h
  split at h
  · split at h
    · cases h
      intro it hit
      rcases List.mem_append.mp hit with h1 | h1
      · exact hitems it h1
      · simp at h1; rw [h1]; exact hq
    · rename_i existing hfind
      dsimp only at h
      split at h
      · simp at h
      · rename_i u hvq
        cases h
        have hnn : 0 ≤ existing.quantity + q := validate_quantity_ok _ u hvq
        intro it hit
        rcases mem_replaceQtyFirst _ _ _ _ hit with h1 | h1
        · exact hitems it h1
        · rw [h1]; exact hnn
  split at h
  · split at h
    · simp at h
    · rename_i existing hfind
      split at h
      · simp at h
      · dsimp only at h
        split at h
        · rename_i hgt
          cases h
          intro it hit
          rcases mem_replaceQtyFirst _ _ _ _ hit with h1 | h1
          · exact hitems it h1
          · rw [h1]; exact le_of_lt hgt
        · cases h
          intro it hit
          exact hitems it (mem_removeFirstSku _ _ _ hit)
  split at h
  · split at h
    · rename_i hpos
      split at h
      · cases h
        intro it hit
        rcases mem_replaceQtyFirst _ _ _ _ hit with h1 | h1
        · exact hitems it h1
        · rw [h1]; exact hq
      · cases h
        intro it hit
        rcases List.mem_append.mp hit with h1 | h1
        · exact hitems it h1
        · simp at h1; rw [h1]; exact hq
    · split at h
      · cases h
        intro it hit
        exact hitems it (mem_removeFirstSku _ _ _ hit)
      · cases h
        exact hitems
  · cases h
    exact hitems

theorem qtyNonneg_get_shopping_list (st : ClientState) (c : Int) (hinv : QtyNonneg st) :
    QtyNonneg (get_shopping_list st c).2 := by
  intro d it hit
  rw [customerItems_get_shopping_list] at hit
  exact hinv d it hit

theorem qtyNonneg_get_item_info (st : ClientState) (s : Int) (hinv : QtyNonneg st) :
    QtyNonneg (get_item_info st s).2 := by
  intro d it hit
  unfold customerItems at hit
  rw [get_item_info_shopping_lists] at hit
  exact hinv d it hit

theorem qtyNonneg_update_list (st : ClientState) (sku q c : Int) (op : String)
    (hinv : QtyNonneg st) : QtyNonneg (update_list st sku q c op).2 := by
  unfold update_list
  split
  · exact hinv
  split
  · exact hinv
  rename_i us hvs uq hvq
  split
  · exact hinv
  split
  · exact hinv
  split
  · rename_i e st1 heq
    have h2 := qtyNonneg_get_shopping_list st c hinv
    rw [heq] at h2
    exact h2
  · rename_i hvq0 sl st1 heq
    split
    · have h2 := qtyNonneg_get_shopping_list st c hinv
      rw [heq] at h2
      exact h2
    · rename_i newItems ha
      intro d it hit
      have hst1 := qtyNonneg_get_shopping_list st c hinv
      rw [heq] at hst1
      unfold customerItems at hit
      simp only [lookupAssoc_setAssoc] at hit
      by_cases hcd : c = d
      · subst hcd
        simp at hit
        have hq : 0 ≤ q := validate_quantity_ok q uq hvq
        have hsl : ∀ it2 ∈ sl.items, 0 ≤ it2.quantity := by
          intro it2 hit2
          have h5 := get_shopping_list_ok_items st c sl st1 heq
          exact hinv c it2 (h5 ▸ hit2)
        exact applyOperation_nonneg sl.items sku q op newItems hq hsl ha it hit
      · rw [if_neg hcd] at hit
        exact hst1 d it hit

theorem reach_qtyNonneg (st : ClientState) (h : Reach st) : QtyNonneg st := by
  induction h with
  | init => intro c it hit; simp [initialClientState, customerItems, lookupAssoc] at hit
  | getList st c _ ih => exact qtyNonneg_get_shopping_list st c ih
  | getItem st s _ ih => exact qtyNonneg_get_item_info st s ih
  | update st sku q c op _ ih => exact qtyNonneg_update_list st sku q c op ih

/-- SKUs are unique within a list of line items. -/
def SkusUnique (items : List LineItem) : Prop :=
  (items.map LineItem.sku).Nodup

theorem map_sku_replaceQtyFirst (items : List LineItem) (s q : Int) :
    (replaceQtyFirst items s q).map LineItem.sku = items.map LineItem.sku := by
  induction items with
  | nil => rfl
  | cons hd tl ih =>
    by_cases h2 : hd.sku = s
    · simp [replaceQtyFirst, h2]
    · simp [replaceQtyFirst, h2, ih]

theorem removeFirstSku_sublist (items : List LineItem) (s : Int) :
    (removeFirstSku items s).Sublist items := by
  induction items with
  | nil => simp [removeFirstSku]
  | cons hd tl ih =>
    by_cases h2 : hd.sku = s
    · simp [removeFirstSku, h2]
    · simp [removeFirstSku, h2]
      exact ih

theorem skusUnique_replaceQtyFirst (items : List LineItem) (s q : Int)
    (h : SkusUnique items) : SkusUnique (replaceQtyFirst items s q) := by
  unfold SkusUnique
  rw [map_sku_replaceQtyFirst]
  exact h

theorem skusUnique_removeFirstSku (items : List LineItem) (s : Int)
    (h : SkusUnique items) : SkusUnique (removeFirstSku items s) := by
  exact List.Nodup.sublist (List.Sublist.map _ (removeFirstSku_sublist items s)) h

theorem skusUnique_append (items : List LineItem) (s q : Int)
    (h : SkusUnique items) (hf : findItem items s = none) :
    SkusUnique (items ++ [{ sku := s, quantity := q }]) := by
  unfold SkusUnique
  rw [List.map_append]
  simp only [List.map_cons, List.map_nil]
  rw [List.nodup_append]
  refine ⟨h, List.nodup_singleton s, ?_⟩
  intro x hx
  simp only [List.mem_map] at hx
  obtain ⟨it, hit, hsku⟩ := hx
  have := not_mem_of_findItem_none items s hf it hit
  simp only [List.mem_singleton]
  rw [← hsku]
  exact this

theorem applyOperation_skusUnique (items : List LineItem) (s q : Int) (op : String)
    (newItems : List LineItem) (h : SkusUnique items)
    (ha : applyOperation items s q op = .ok newItems) : SkusUnique newItems := by
  unfold applyOperation at ha
  split at ha
  · split at ha
    · rename_i hfind
      cases ha
      exact skusUnique_append items s q h hfind
    · dsimp only at ha
      split at ha
      · simp at ha
      · cases ha
        exact skusUnique_replaceQtyFirst items s _ h
  split at ha
  · split at ha
    · simp at ha
    · split at ha
      · simp at ha
      · dsimp only at ha
        split at ha
        · cases ha
          exact skusUnique_replaceQtyFirst items s _ h
        · cases ha
          exact skusUnique_removeFirstSku items s h
  split at ha
  · split at ha
    · split at ha
      · cases ha
        exact skusUnique_replaceQtyFirst items s _ h
      · rename_i hfind
        cases ha
        exact skusUnique_append items s q h hfind
    · split at ha
      · cases ha
        exact skusUnique_removeFirstSku items s h
      · cases ha
        exact h
  · cases ha
    exact h

/-- SKUs are unique in every customer's stored list. -/
def UniqInv (st : ClientState) : Prop :=
  ∀ c : Int, SkusUnique (customerItems st c)

theorem uniqInv_get_shopping_list (st : ClientState) (c : Int) (hinv : UniqInv st) :
    UniqInv (get_shopping_list st c).2 := by
  intro d
  rw [customerItems_get_shopping_list]
  exact hinv d

theorem uniqInv_get_item_info (st : ClientState) (s : Int) (hinv : UniqInv st) :
    UniqInv (get_item_info st s).2 := by
  intro d
  unfold customerItems
  rw [get_item_info_shopping_lists]
  exact hinv d

theorem uniqInv_update_list (st : ClientState) (sku q c : Int) (op : String)
    (hinv : UniqInv st) : UniqInv (update_list st sku q c op).2 := by
  unfold update_list
  split
  · exact hinv
  split
  · exact hinv
  split
  · exact hinv
  split
  · exact hinv
  split
  · rename_i e st1 heq
    have h2 := uniqInv_get_shopping_list st c hinv
    rw [heq] at h2
    exact h2
  · rename_i sl st1 heq
    split
    · have h2 := uniqInv_get_shopping_list st c hinv
      rw [heq] at h2
      exact h2
    · rename_i newItems ha
      intro d
      have hst1 := uniqInv_get_shopping_list st c hinv
      rw [heq] at hst1
      unfold customerItems
      simp only [lookupAssoc_setAssoc]
      by_cases hcd : c = d
      · subst hcd
        simp only [if_pos rfl]
        have hsl : SkusUnique sl.items := by
          have h5 := get_shopping_list_ok_items st c sl st1 heq
          rw [h5]
          exact hinv c
        exact applyOperation_skusUnique sl.items sku q op newItems hsl ha
      · rw [if_neg hcd]
        exact hst1 d

theorem reach_uniqInv (st : ClientState) (h : Reach st) : UniqInv st := by
  induction h with
  | init => intro c; simp [initialClientState, customerItems, lookupAssoc, SkusUnique]
  | getList st c _ ih => exact uniqInv_get_shopping_list st c ih
  | getItem st s _ ih => exact uniqInv_get_item_info st s ih
  | update st sku q c op _ ih => exact uniqInv_update_list st sku q c op ih

theorem findItem_removeFirstSku_of_unique (items : List LineItem) (s : Int)
    (h : SkusUnique items) : findItem (removeFirstSku items s) s = none := by
  induction items with
  | nil => rfl
  | cons hd tl ih =>
    by_cases h2 : hd.sku = s
    · simp only [removeFirstSku, if_pos h2]
      apply findItem_eq_none
      intro it hit
      unfold SkusUnique at h
      simp only [List.map_cons, List.nodup_cons] at h
      intro hsk
      refine h.1 ?_
      have h3 : it.sku = hd.sku := by rw [hsk, h2]
      rw [← h3]
      exact List.mem_map_of_mem LineItem.sku hit
    · simp only [removeFirstSku, if_neg h2, findItem, if_neg h2]
      apply ih
      unfold SkusUnique at h ⊢
      simp only [List.map_cons, List.nodup_cons] at h
      exact h.2

theorem lookup_get_shopping_list_other (st : ClientState) (c d : Int) (hdc : d ≠ c) :
    lookupAssoc (get_shopping_list st c).2.shopping_lists d
      = lookupAssoc st.shopping_lists d := by
  unfold get_shopping_list
  split
  · rfl
  split
  · rfl
  · simp only [lookupAssoc_setAssoc]
    rw [if_neg (fun h => hdc h.symm)]

theorem lookup_update_list_other (st : ClientState) (sku q c : Int) (op : String)
    (d : Int) (hdc : d ≠ c) :
    lookupAssoc (update_list st sku q c op).2.shopping_lists d
      = lookupAssoc st.shopping_lists d := by
  unfold update_list
  split
  · rfl
  split
  · rfl
  split
  · rfl
  split
  · rfl
  split
  · rename_i e st1 heq
    have h2 := lookup_get_shopping_list_other st c d hdc
    rw [heq] at h2
    exact h2
  · rename_i sl st1 heq
    split
    · have h2 := lookup_get_shopping_list_other st c d hdc
      rw [heq] at h2
      exact h2
    · rename_i newItems ha
      simp only [lookupAssoc_setAssoc]
      rw [if_neg (fun h => hdc h.symm)]
      have h2 := lookup_get_shopping_list_other st c d hdc
      rw [heq] at h2
      exact h2

/-! ### Claim theorems -/

/-- C1: `update_list` is atomic.  On any input whatsoever, either the
operation succeeds and the returned list is exactly the list now stored
for the customer, or it raises an error and every customer's observable
list contents are exactly as before the call — no partially applied
update. -/
theorem update_list_atomic (st : ClientState) (sku q c : Int) (op : String) :
    (∀ e st', update_list st sku q c op = (.error e, st') →
      ∀ d, customerItems st' d = customerItems st d) ∧
    (∀ sl2 st', update_list st sku q c op = (.ok sl2, st') →
      lookupAssoc st'.shopping_lists c = some sl2) :=
  ⟨fun e st' h => update_list_error_state st sku q c op e st' h,
   fun sl2 st' h => update_list_ok_lookup st sku q c op sl2 st' h⟩

/-- Witness for C1: a failing `update_list` (invalid SKU) from the fresh
store leaves customer 0's list contents unchanged. -/
theorem update_list_atomic_witness :
    customerItems initialClientState 0 = customerItems initialClientState 0 :=
  (update_list_atomic initialClientState (-1) 5 0 "add").1
    (.validationError "SKU must be a positive integer") initialClientState (by rfl) 0

/-- C2 counterexample: from the fresh store, a single `update_list` with
operation "add" and quantity 0 on catalog SKU 101 reaches a state whose
customer-0 list stores a LineItem with quantity 0, refuting the claimed
strict quantity > 0 invariant. -/
theorem qty_zero_reachable :
    Reach (update_list initialClientState 101 0 0 "add").2 ∧
    ({ sku := 101, quantity := 0 } : LineItem)
      ∈ customerItems (update_list initialClientState 101 0 0 "add").2 0 :=
  ⟨Reach.update initialClientState 101 0 0 "add" Reach.init, by decide⟩

/-- C2 amended: on every store state reachable by any sequence of
`get_shopping_list` / `get_item_info` / `update_list` calls, every
stored LineItem has quantity ≥ 0 (not > 0: operation "add" can store a
LineItem with quantity 0, as the counterexample shows). -/
theorem qty_nonneg_reachable (st : ClientState) (h : Reach st) :
    ∀ c : Int, ∀ it ∈ customerItems st c, 0 ≤ it.quantity :=
  reach_qtyNonneg st h

/-- Witness for the amended C2 at a concrete reachable state. -/
theorem qty_nonneg_reachable_witness :
    (0 : Int) ≤ ({ sku := 101, quantity := 2 } : LineItem).quantity :=
  qty_nonneg_reachable (update_list initialClientState 101 2 0 "add").2
    (Reach.update initialClientState 101 2 0 "add" Reach.init) 0
    { sku := 101, quantity := 2 } (by decide)

/-- C7: customer lists are independent: any `update_list` operation on
customer c1's list, and any `get_shopping_list c1` call, leaves the
stored list of every other customer c2 unchanged. -/
theorem customer_lists_independent (st : ClientState) (c1 c2 sku q : Int)
    (op : String) (h : c1 ≠ c2) :
    lookupAssoc (get_shopping_list st c1).2.shopping_lists c2
        = lookupAssoc st.shopping_lists c2 ∧
    lookupAssoc (update_list st sku q c1 op).2.shopping_lists c2
        = lookupAssoc st.shopping_lists c2 :=
  ⟨lookup_get_shopping_list_other st c1 c2 (fun hh => h hh.symm),
   lookup_update_list_other st sku q c1 op c2 (fun hh => h hh.symm)⟩

/-- Witness for C7 at concrete distinct customers 0 and 1. -/
theorem customer_lists_independent_witness :
    lookupAssoc (get_shopping_list initialClientState 0).2.shopping_lists 1
        = lookupAssoc initialClientState.shopping_lists 1 ∧
    lookupAssoc (update_list initialClientState 101 2 0 "add").2.shopping_lists 1
        = lookupAssoc initialClientState.shopping_lists 1 :=
  customer_lists_independent initialClientState 0 1 101 2 "add" (by decide)

/-- C6: `get_shopping_list` fails with a validation error on a negative
customer id (leaving the state untouched); on a valid id over any
reachable state it returns the customer's list with `list_id` equal to
the id, creating the empty list `{list_id: c, items: []}` on first
access, and a second call without intervening updates returns the very
same list and leaves the state unchanged. -/
theorem get_shopping_list_spec (st : ClientState) (c : Int) (h : Reach st) :
    (c < 0 → get_shopping_list st c = (.error (.validationError "Invalid customer ID"), st)) ∧
    (0 ≤ c → ∃ sl st1, get_shopping_list st c = (.ok sl, st1)
      ∧ sl.list_id = c
      ∧ sl.items = customerItems st c
      ∧ (lookupAssoc st.shopping_lists c = none → sl = { list_id := c, items := [] })
      ∧ get_shopping_list st1 c = (.ok sl, st1)) := by
  constructor
  · intro hc
    exact get_shopping_list_neg st c hc
  · intro hc
    cases hl : lookupAssoc st.shopping_lists c with
    | some sl =>
      refine ⟨sl, st, get_shopping_list_of_some st c sl hc hl, ?_, ?_, ?_, ?_⟩
      · exact reach_listIdInv st h c sl hl
      · simp [customerItems, hl]
      · intro h2; exact Option.noConfusion h2
      · exact get_shopping_list_of_some st c sl hc hl
    | none =>
      refine ⟨{ list_id := c, items := [] },
        ⟨setAssoc st.shopping_lists c { list_id := c, items := [] }, st.items⟩,
        get_shopping_list_of_none st c hc hl, rfl, ?_, fun _ => rfl, ?_⟩
      · simp [customerItems, hl]
      · apply get_shopping_list_of_some _ c _ hc
        simp [lookupAssoc_setAssoc]

/-- Witness for C6 at the fresh store and the valid customer id 5. -/
theorem get_shopping_list_spec_witness :
    ∃ sl st1, get_shopping_list initialClientState 5 = (.ok sl, st1)
      ∧ sl.list_id = 5
      ∧ sl.items = customerItems initialClientState 5
      ∧ (lookupAssoc initialClientState.shopping_lists 5 = none →
          sl = { list_id := 5, items := [] })
      ∧ get_shopping_list st1 5 = (.ok sl, st1) :=
  (get_shopping_list_spec initialClientState 5 Reach.init).2 (by decide)

/-- C8: `get_item_info` fails with ItemNotFound on a SKU absent from the
catalog (999 on the seed catalog) and on a present SKU returns the
catalog item with its unit price normalized to an exact multiple of
1/100, i.e. exactly two decimal places; for seed SKU 101 the returned
price is exactly 3.50. -/
theorem get_item_info_spec :
    (∃ msg, (get_item_info initialClientState 999).1
        = .error (.itemNotFoundError msg)) ∧
    ((get_item_info initialClientState 101).1
        = .ok { sku := 101, item_name := "Apple", unit_price := 7/2 }) ∧
    (∀ st : ClientState, ∀ s : Int, 0 < s → lookupAssoc st.items s = none →
      (get_item_info st s).1
        = .error (.itemNotFoundError ("Item with SKU " ++ toString s ++ " not found"))) ∧
    (∀ st : ClientState, ∀ s : Int, ∀ item : CatalogItem, 0 < s →
      lookupAssoc st.items s = some item →
      ∃ n : ℤ, (get_item_info st s).1
        = .ok { item with unit_price := (n : ℚ) / 100 }) := by
  have hgen : ∀ st : ClientState, ∀ s : Int, 0 < s → lookupAssoc st.items s = none →
      (get_item_info st s).1
        = .error (.itemNotFoundError ("Item with SKU " ++ toString s ++ " not found")) := by
    intro st s hs hnone
    simp [get_item_info, validate_sku, not_le.mpr hs, hnone]
  have h350 : format_currency (7/2 : ℚ) = 7/2 := by
    unfold format_currency
    have h1 : (7/2 : ℚ) * 100 = ((350 : ℤ) : ℚ) := by norm_num
    rw [h1, round_intCast]
    norm_num
  refine ⟨?_, ?_, hgen, ?_⟩
  · refine ⟨"Item with SKU " ++ toString (999 : Int) ++ " not found", ?_⟩
    apply hgen
    · decide
    · simp [initialClientState, initialCatalog, lookupAssoc]
  · simp [get_item_info, initialClientState, initialCatalog, lookupAssoc, validate_sku, h350]
  · intro st s item hs hsome
    refine ⟨round (item.unit_price * 100), ?_⟩
    simp [get_item_info, validate_sku, not_le.mpr hs, hsome, format_currency]

/-- Witness for C8, applying the general present-SKU clause to seed
SKU 103 (Milk) on the fresh store. -/
theorem get_item_info_spec_witness :
    ∃ n : ℤ, (get_item_info initialClientState 103).1
      = .ok { sku := 103, item_name := "Milk", unit_price := (n : ℚ) / 100 } :=
  get_item_info_spec.2.2.2 initialClientState 103
    ⟨103, "Milk", 14/5⟩ (by decide)
    (by simp [initialClientState, initialCatalog, lookupAssoc])

/-- C9 counterexample: `GetShoppingListTool.forward` on customer id -1
returns the error dict with `error_code = None` (the raised exception's
own code), which is none of VALIDATION_ERROR / ITEM_NOT_FOUND /
UNKNOWN_ERROR — refuting the claim that every tool-boundary error
result carries one of those three codes. -/
theorem tool_error_code_none :
    getShoppingListTool_forward initialClientState (-1)
      = (.err "Customer ID must be a positive integer" none, initialClientState) ∧
    (none : Option String)
      ∉ [some "VALIDATION_ERROR", some "ITEM_NOT_FOUND", some "UNKNOWN_ERROR"] :=
  ⟨rfl, by decide⟩

/-- C9 amended: every failure of `UpdateListTool.forward` is returned as
a data-shaped error result whose code is one of VALIDATION_ERROR,
ITEM_NOT_FOUND, UNKNOWN_ERROR; `GetShoppingListTool.forward` also never
lets an error escape as an exception, but its error results carry the
raised exception's own `error_code`, which is always `None` rather than
one of the three codes. -/
theorem tool_error_codes (st : ClientState) (sku q c : Int) (op : String) (c2 : Int) :
    (∀ msg code, (updateListTool_forward st sku q c op).1 = .err msg code →
      code = some "VALIDATION_ERROR" ∨ code = some "ITEM_NOT_FOUND"
        ∨ code = some "UNKNOWN_ERROR") ∧
    (∀ msg code, (getShoppingListTool_forward st c2).1 = .err msg code →
      code = none) := by
  constructor
  · intro msg code h
    unfold updateListTool_forward at h
    split at h
    · rename_i e hv
      dsimp only at h
      cases h
      cases e
      · left; rfl
      · right; left; rfl
    split at h
    · rename_i e hv
      dsimp only at h
      cases h
      cases e
      · left; rfl
      · right; left; rfl
    split at h
    · rename_i e st1 heq
      dsimp only at h
      cases h
      cases e
      · left; rfl
      · right; left; rfl
    · rename_i cur st1 heq
      dsimp only at h
      split at h
      · dsimp only at h
        cases h
        right; left; rfl
      split at h
      · dsimp only at h
        cases h
        left; rfl
      · split at h
        · rename_i e st2 hupd
          dsimp only at h
          cases h
          cases e
          · left; rfl
          · right; left; rfl
        · rename_i sl2 st2 hupd
          dsimp only at h
          cases h
  · intro msg code h
    unfold getShoppingListTool_forward at h
    split at h
    · rename_i e hv
      dsimp only at h
      cases h
      rfl
    · split at h
      · dsimp only at h
        cases h
      · rename_i e st1 heq
        dsimp only at h
        cases h
        rfl

/-- Witness for the amended C9: a concrete failing update (negative
quantity) yields the VALIDATION_ERROR code, and a concrete failing list
fetch (customer id -2) yields a code of `None`. -/
theorem tool_error_codes_witness :
    (some "VALIDATION_ERROR" = some "VALIDATION_ERROR"
      ∨ some "VALIDATION_ERROR" = some "ITEM_NOT_FOUND"
      ∨ some "VALIDATION_ERROR" = some "UNKNOWN_ERROR") ∧
    (none : Option String) = none :=
  ⟨(tool_error_codes initialClientState 101 (-1) 0 "add" (-2)).1
      "Quantity cannot be negative" (some "VALIDATION_ERROR") (by rfl),
   (tool_error_codes initialClientState 101 (-1) 0 "add" (-2)).2
      "Customer ID must be a positive integer" none (by rfl)⟩

/-- C10: `UpdateListTool.forward` with operation "remove" and a
non-positive quantity on a SKU present in the customer's list returns a
VALIDATION_ERROR result with the store state untouched, so the store
update is never invoked (for quantity 0 the message is exactly
"Quantity must be positive for removal"; for negative quantities the
quantity validator fires first with its own message).  The store's own
`update_list`, by contrast, accepts a remove with quantity 0: it
succeeds, keeping a positive-quantity LineItem unchanged and removing a
quantity-0 LineItem from the list. -/
theorem tool_remove_nonpositive (st : ClientState) (sku q c : Int) (ex : LineItem)
    (item : CatalogItem)
    (hq : q ≤ 0) (hc : 0 ≤ c) (hs : 0 < sku)
    (hcat : lookupAssoc st.items sku = some item)
    (hfind : findItem (customerItems st c) sku = some ex) :
    (∃ msg, updateListTool_forward st sku q c "remove"
        = (.err msg (some "VALIDATION_ERROR"), st)) ∧
    (q = 0 → updateListTool_forward st sku q c "remove"
        = (.err "Quantity must be positive for removal" (some "VALIDATION_ERROR"), st)) ∧
    (0 < ex.quantity → ∃ sl2, update_list st sku 0 c "remove" = (.ok sl2, st)
        ∧ sl2.items = customerItems st c) ∧
    (ex.quantity = 0 → ∃ sl2, (update_list st sku 0 c "remove").1 = .ok sl2
        ∧ sl2.items = removeFirstSku (customerItems st c) sku) := by
  have hsl : ∃ sl, lookupAssoc st.shopping_lists c = some sl
      ∧ sl.items = customerItems st c := by
    cases hl2 : lookupAssoc st.shopping_lists c with
    | some sl => exact ⟨sl, rfl, by simp [customerItems, hl2]⟩
    | none =>
      unfold customerItems at hfind
      rw [hl2] at hfind
      simp [findItem] at hfind
  obtain ⟨sl, hl, hslitems⟩ := hsl
  have hget : get_shopping_list st c = (.ok sl, st) :=
    get_shopping_list_of_some st c sl hc hl
  have hfind2 : findItem sl.items sku = some ex := by rw [hslitems]; exact hfind
  have htool0 : updateListTool_forward st sku 0 c "remove"
      = (.err "Quantity must be positive for removal" (some "VALIDATION_ERROR"), st) := by
    unfold updateListTool_forward
    simp [validate_quantity, validate_operation, hget, hfind2]
  refine ⟨?_, fun h0 => by rw [h0]; exact htool0, ?_, ?_⟩
  · by_cases hq0 : q < 0
    · refine ⟨"Quantity cannot be negative", ?_⟩
      unfold updateListTool_forward
      simp [validate_quantity, hq0, toolErrorCode, SLError.message]
    · have h0 : q = 0 := le_antisymm hq (not_lt.mp hq0)
      rw [h0]
      exact ⟨"Quantity must be positive for removal", htool0⟩
  · intro hpos
    refine ⟨sl, ?_, hslitems⟩
    rw [update_list_eq st sku 0 c "remove" item hs le_rfl (by simp) hcat, hget]
    have ha : applyOperation sl.items sku 0 "remove" = .ok sl.items := by
      rw [applyOperation_remove_some sl.items sku 0 ex hfind2]
      rw [if_neg (not_lt.mpr (le_of_lt hpos)), sub_zero, if_pos hpos]
      rw [replaceQtyFirst_self sl.items sku ex hfind2]
    simp only [ha]
    rw [setAssoc_of_lookup_eq st.shopping_lists c sl hl]
  · intro hzero
    refine ⟨⟨sl.list_id, removeFirstSku sl.items sku⟩, ?_, by rw [hslitems]⟩
    rw [update_list_eq st sku 0 c "remove" item hs le_rfl (by simp) hcat, hget]
    have ha : applyOperation sl.items sku 0 "remove"
        = .ok (removeFirstSku sl.items sku) := by
      rw [applyOperation_remove_some sl.items sku 0 ex hfind2]
      rw [hzero]
      norm_num
    simp only [ha]

/-- Witness for C10 on a concrete state: customer 0 holds SKU 101 with
quantity 2; a remove with quantity 0 at the tool boundary is rejected
with VALIDATION_ERROR while the store's update_list accepts it. -/
theorem tool_remove_nonpositive_witness :
    (∃ msg, updateListTool_forward (update_list initialClientState 101 2 0 "add").2
        101 0 0 "remove" = (.err msg (some "VALIDATION_ERROR"),
          (update_list initialClientState 101 2 0 "add").2)) ∧
    ((0 : Int) = 0 → updateListTool_forward (update_list initialClientState 101 2 0 "add").2
        101 0 0 "remove" = (.err "Quantity must be positive for removal"
          (some "VALIDATION_ERROR"), (update_list initialClientState 101 2 0 "add").2)) ∧
    (0 < ({ sku := 101, quantity := 2 } : LineItem).quantity →
      ∃ sl2, update_list (update_list initialClientState 101 2 0 "add").2 101 0 0 "remove"
          = (.ok sl2, (update_list initialClientState 101 2 0 "add").2)
        ∧ sl2.items = customerItems (update_list initialClientState 101 2 0 "add").2 0) ∧
    (({ sku := 101, quantity := 2 } : LineItem).quantity = 0 →
      ∃ sl2, (update_list (update_list initialClientState 101 2 0 "add").2 101 0 0 "remove").1
          = .ok sl2
        ∧ sl2.items = removeFirstSku
            (customerItems (update_list initialClientState 101 2 0 "add").2 0) 101) :=
  tool_remove_nonpositive (update_list initialClientState 101 2 0 "add").2
    101 0 0 { sku := 101, quantity := 2 } ⟨101, "Apple", 7/2⟩
    le_rfl le_rfl (by decide)
    (by simp [initialClientState, initialCatalog, update_list, validate_sku,
      validate_quantity, get_shopping_list, lookupAssoc, setAssoc, applyOperation, findItem])
    (by simp [initialClientState, initialCatalog, update_list, validate_sku,
      validate_quantity, get_shopping_list, lookupAssoc, setAssoc, applyOperation,
      findItem, customerItems])

/-- C3: `update_list` with operation "remove" on a valid customer id,
non-negative quantity and catalog SKU, over any reachable state: fails
with ItemNotFound when no LineItem for the SKU is in the list; fails
with a validation error and leaves the list unchanged when the
requested quantity exceeds the existing one; otherwise succeeds,
subtracting the requested quantity, keeping the LineItem when the
result is positive and removing it from the list entirely otherwise. -/
theorem remove_semantics (st : ClientState) (sku q c : Int) (item : CatalogItem)
    (hr : Reach st)
    (hs : 0 < sku) (hcat : lookupAssoc st.items sku = some item)
    (hq : 0 ≤ q) (hc : 0 ≤ c) :
    (findItem (customerItems st c) sku = none →
      ∃ msg, (update_list st sku q c "remove").1 = .error (.itemNotFoundError msg)) ∧
    (∀ ex, findItem (customerItems st c) sku = some ex → ex.quantity < q →
      (∃ msg, (update_list st sku q c "remove").1 = .error (.validationError msg)) ∧
      customerItems (update_list st sku q c "remove").2 c = customerItems st c) ∧
    (∀ ex, findItem (customerItems st c) sku = some ex → q ≤ ex.quantity →
      ∃ sl2, (update_list st sku q c "remove").1 = .ok sl2
        ∧ customerItems (update_list st sku q c "remove").2 c = sl2.items
        ∧ findQty sl2.items sku
            = (if 0 < ex.quantity - q then some (ex.quantity - q) else none)) := by
  have key := update_list_eq st sku q c "remove" item hs hq (by simp) hcat
  cases hl : lookupAssoc st.shopping_lists c with
  | none =>
    have hempty : customerItems st c = [] := by simp [customerItems, hl]
    have hget := get_shopping_list_of_none st c hc hl
    refine ⟨?_, ?_, ?_⟩
    · intro _
      refine ⟨"Cannot remove - item with SKU " ++ toString sku ++ " not found in list", ?_⟩
      rw [key, hget]
      simp [applyOperation_remove_none ([] : List LineItem) sku q rfl]
    · intro ex hfind _
      rw [hempty] at hfind
      simp [findItem] at hfind
    · intro ex hfind _
      rw [hempty] at hfind
      simp [findItem] at hfind
  | some sl =>
    have hitems : customerItems st c = sl.items := by simp [customerItems, hl]
    have hget := get_shopping_list_of_some st c sl hc hl
    refine ⟨?_, ?_, ?_⟩
    · intro hfind
      rw [hitems] at hfind
      refine ⟨"Cannot remove - item with SKU " ++ toString sku ++ " not found in list", ?_⟩
      rw [key, hget]
      simp [applyOperation_remove_none sl.items sku q hfind]
    · intro ex hfind hlt
      rw [hitems] at hfind
      constructor
      · refine ⟨"Cannot remove " ++ toString q ++ " - only "
          ++ toString ex.quantity ++ " available", ?_⟩
        rw [key, hget]
        simp [applyOperation_remove_some sl.items sku q ex hfind, hlt]
      · rw [key, hget]
        simp [applyOperation_remove_some sl.items sku q ex hfind, hlt]
    · intro ex hfind hge
      rw [hitems] at hfind
      have hnlt : ¬ ex.quantity < q := not_lt.mpr hge
      by_cases hpos : 0 < ex.quantity - q
      · refine ⟨⟨sl.list_id, replaceQtyFirst sl.items sku (ex.quantity - q)⟩, ?_, ?_, ?_⟩
        · rw [key, hget]
          simp [applyOperation_remove_some sl.items sku q ex hfind, hnlt,
            sub_pos.mp hpos]
        · rw [key, hget]
          simp [applyOperation_remove_some sl.items sku q ex hfind, hnlt,
            sub_pos.mp hpos, customerItems, lookupAssoc_setAssoc]
        · rw [if_pos hpos]
          unfold findQty
          rw [findItem_replaceQtyFirst]
          rw [hfind]
          rfl
      · have hnlt2 : ¬ q < ex.quantity := not_lt.mpr (sub_nonpos.mp (not_lt.mp hpos))
        refine ⟨⟨sl.list_id, removeFirstSku sl.items sku⟩, ?_, ?_, ?_⟩
        · rw [key, hget]
          simp [applyOperation_remove_some sl.items sku q ex hfind, hnlt, hnlt2]
        · rw [key, hget]
          simp [applyOperation_remove_some sl.items sku q ex hfind, hnlt, hnlt2,
            customerItems, lookupAssoc_setAssoc]
        · rw [if_neg hpos]
          unfold findQty
          have huniq : SkusUnique sl.items := by
            have h2 := reach_uniqInv st hr c
            rw [hitems] at h2
            exact h2
          rw [findItem_removeFirstSku_of_unique sl.items sku huniq]

/-- Witness for C3: on the reachable state where customer 0 holds SKU
101 with quantity 2, removing 5 fails with a validation error and
leaves the list unchanged. -/
theorem remove_semantics_witness :
    (∃ msg,
      (update_list (update_list initialClientState 101 2 0 "add").2 101 5 0 "remove").1
        = .error (.validationError msg)) ∧
    customerItems
        (update_list (update_list initialClientState 101 2 0 "add").2 101 5 0 "remove").2 0
      = customerItems (update_list initialClientState 101 2 0 "add").2 0 :=
  (remove_semantics (update_list initialClientState 101 2 0 "add").2 101 5 0
      ⟨101, "Apple", 7/2⟩
      (Reach.update initialClientState 101 2 0 "add" Reach.init)
      (by decide)
      (by simp [initialClientState, initialCatalog, update_list, validate_sku,
        validate_quantity, get_shopping_list, lookupAssoc, setAssoc, applyOperation, findItem])
      (by decide) (by decide)).2.1
    { sku := 101, quantity := 2 }
    (by simp [initialClientState, initialCatalog, update_list, validate_sku,
      validate_quantity, get_shopping_list, lookupAssoc, setAssoc, applyOperation,
      findItem, customerItems])
    (by decide)

/-- C5: `update_list` with operation "set" on a valid customer id and
catalog SKU, over any reachable state: with quantity 0 it succeeds,
removing the LineItem for the SKU when present and leaving the items
unchanged when absent, and repeating the same set-0 call leaves the
store state unchanged (idempotent); with quantity > 0 it succeeds and
creates or overwrites the LineItem's quantity to exactly that value. -/
theorem set_semantics (st : ClientState) (sku c : Int) (item : CatalogItem)
    (hr : Reach st)
    (hs : 0 < sku) (hcat : lookupAssoc st.items sku = some item) (hc : 0 ≤ c) :
    (∃ sl2, (update_list st sku 0 c "set").1 = .ok sl2
      ∧ sl2.items = removeFirstSku (customerItems st c) sku
      ∧ customerItems (update_list st sku 0 c "set").2 c = sl2.items
      ∧ (findItem (customerItems st c) sku = none → sl2.items = customerItems st c)) ∧
    ((update_list (update_list st sku 0 c "set").2 sku 0 c "set").2
        = (update_list st sku 0 c "set").2) ∧
    (∀ q : Int, 0 < q → ∃ sl2, (update_list st sku q c "set").1 = .ok sl2
      ∧ findQty sl2.items sku = some q
      ∧ customerItems (update_list st sku q c "set").2 c = sl2.items) := by
  have key0 := update_list_eq st sku 0 c "set" item hs le_rfl (by simp) hcat
  cases hl : lookupAssoc st.shopping_lists c with
  | none =>
    have hempty : customerItems st c = [] := by simp [customerItems, hl]
    have hget := get_shopping_list_of_none st c hc hl
    have ha0 : applyOperation ([] : List LineItem) sku 0 "set" = .ok [] := by
      have h2 := applyOperation_set_nonpos ([] : List LineItem) sku 0 le_rfl
      simpa [findItem] using h2
    have hupd1 : update_list st sku 0 c "set"
        = (.ok ⟨c, []⟩, ⟨setAssoc st.shopping_lists c ⟨c, []⟩, st.items⟩) := by
      rw [key0, hget]
      simp [ha0, setAssoc_setAssoc]
    have hl1 : lookupAssoc (setAssoc st.shopping_lists c (⟨c, []⟩ : ShoppingList)) c
        = some ⟨c, []⟩ := by simp [lookupAssoc_setAssoc]
    refine ⟨⟨⟨c, []⟩, by rw [hupd1], by rw [hempty]; rfl, ?_, fun _ => by rw [hempty]⟩, ?_, ?_⟩
    · rw [hupd1]
      simp [customerItems, lookupAssoc_setAssoc]
    · rw [hupd1]
      have hcat1 : lookupAssoc
          (⟨setAssoc st.shopping_lists c ⟨c, []⟩, st.items⟩ : ClientState).items sku
          = some item := hcat
      have key1 := update_list_eq
        (⟨setAssoc st.shopping_lists c ⟨c, []⟩, st.items⟩ : ClientState)
        sku 0 c "set" item hs le_rfl (by simp) hcat1
      have hget1 := get_shopping_list_of_some
        (⟨setAssoc st.shopping_lists c ⟨c, []⟩, st.items⟩ : ClientState) c ⟨c, []⟩ hc hl1
      rw [key1, hget1]
      simp [ha0]
      exact setAssoc_of_lookup_eq _ _ _ hl1
    · intro q hq
      have haq : applyOperation ([] : List LineItem) sku q "set"
          = .ok [{ sku := sku, quantity := q }] := by
        have h2 := applyOperation_set_pos ([] : List LineItem) sku q hq
        simpa [findItem] using h2
      have keyq := update_list_eq st sku q c "set" item hs (le_of_lt hq) (by simp) hcat
      refine ⟨⟨c, [{ sku := sku, quantity := q }]⟩, ?_, ?_, ?_⟩
      · rw [keyq, hget]
        simp [haq]
      · simp [findQty, findItem]
      · rw [keyq, hget]
        simp [haq, customerItems, lookupAssoc_setAssoc, setAssoc_setAssoc]
  | some sl =>
    have hitems : customerItems st c = sl.items := by simp [customerItems, hl]
    have hget := get_shopping_list_of_some st c sl hc hl
    have huniq : SkusUnique sl.items := by
      have h2 := reach_uniqInv st hr c
      rw [hitems] at h2
      exact h2
    have hposPart : ∀ q : Int, 0 < q → ∃ sl2, (update_list st sku q c "set").1 = .ok sl2
        ∧ findQty sl2.items sku = some q
        ∧ customerItems (update_list st sku q c "set").2 c = sl2.items := by
      intro q hq
      have keyq := update_list_eq st sku q c "set" item hs (le_of_lt hq) (by simp) hcat
      cases hfx : findItem sl.items sku with
      | some ex =>
        have haq : applyOperation sl.items sku q "set"
            = .ok (replaceQtyFirst sl.items sku q) := by
          have h2 := applyOperation_set_pos sl.items sku q hq
          simpa [hfx] using h2
        refine ⟨⟨sl.list_id, replaceQtyFirst sl.items sku q⟩, ?_, ?_, ?_⟩
        · rw [keyq, hget]
          simp [haq]
        · unfold findQty
          rw [findItem_replaceQtyFirst, hfx]
          rfl
        · rw [keyq, hget]
          simp [haq, customerItems, lookupAssoc_setAssoc]
      | none =>
        have haq : applyOperation sl.items sku q "set"
            = .ok (sl.items ++ [{ sku := sku, quantity := q }]) := by
          have h2 := applyOperation_set_pos sl.items sku q hq
          simpa [hfx] using h2
        refine ⟨⟨sl.list_id, sl.items ++ [{ sku := sku, quantity := q }]⟩, ?_, ?_, ?_⟩
        · rw [keyq, hget]
          simp [haq]
        · unfold findQty
          rw [findItem_append_of_none sl.items sku _ hfx rfl]
        · rw [keyq, hget]
          simp [haq, customerItems, lookupAssoc_setAssoc]
    cases hfx : findItem sl.items sku with
    | some ex =>
      have ha : applyOperation sl.items sku 0 "set"
          = .ok (removeFirstSku sl.items sku) := by
        have h2 := applyOperation_set_nonpos sl.items sku 0 le_rfl
        simpa [hfx] using h2
      have hupd1 : update_list st sku 0 c "set"
          = (.ok ⟨sl.list_id, removeFirstSku sl.items sku⟩,
             ⟨setAssoc st.shopping_lists c ⟨sl.list_id, removeFirstSku sl.items sku⟩,
              st.items⟩) := by
        rw [key0, hget]
        simp [ha]
      have hl1 : lookupAssoc
          (setAssoc st.shopping_lists c
            (⟨sl.list_id, removeFirstSku sl.items sku⟩ : ShoppingList)) c
          = some ⟨sl.list_id, removeFirstSku sl.items sku⟩ := by
        simp [lookupAssoc_setAssoc]
      refine ⟨⟨⟨sl.list_id, removeFirstSku sl.items sku⟩, by rw [hupd1],
        by rw [hitems], ?_, ?_⟩, ?_, hposPart⟩
      · rw [hupd1]
        simp [customerItems, lookupAssoc_setAssoc]
      · intro hnone
        rw [hitems] at hnone
        rw [hnone] at hfx
        cases hfx
      · rw [hupd1]
        have hfx1 : findItem (removeFirstSku sl.items sku) sku = none :=
          findItem_removeFirstSku_of_unique sl.items sku huniq
        have ha1 : applyOperation (removeFirstSku sl.items sku) sku 0 "set"
            = .ok (removeFirstSku sl.items sku) := by
          have h2 := applyOperation_set_nonpos (removeFirstSku sl.items sku) sku 0 le_rfl
          simpa [hfx1] using h2
        have hcat1 : lookupAssoc
            (⟨setAssoc st.shopping_lists c ⟨sl.list_id, removeFirstSku sl.items sku⟩,
              st.items⟩ : ClientState).items sku = some item := hcat
        have key1 := update_list_eq
          (⟨setAssoc st.shopping_lists c ⟨sl.list_id, removeFirstSku sl.items sku⟩,
            st.items⟩ : ClientState) sku 0 c "set" item hs le_rfl (by simp) hcat1
        have hget1 := get_shopping_list_of_some
          (⟨setAssoc st.shopping_lists c ⟨sl.list_id, removeFirstSku sl.items sku⟩,
            st.items⟩ : ClientState) c ⟨sl.list_id, removeFirstSku sl.items sku⟩ hc hl1
        rw [key1, hget1]
        simp [ha1]
        exact setAssoc_of_lookup_eq _ _ _ hl1
    | none =>
      have ha : applyOperation sl.items sku 0 "set" = .ok sl.items := by
        have h2 := applyOperation_set_nonpos sl.items sku 0 le_rfl
        simpa [hfx] using h2
      have hupd1 : update_list st sku 0 c "set" = (.ok sl, st) := by
        rw [key0, hget]
        simp [ha]
        have heta : ({ list_id := sl.list_id, items := sl.items } : ShoppingList) = sl := rfl
        rw [heta, setAssoc_of_lookup_eq st.shopping_lists c sl hl]
      refine ⟨⟨sl, by rw [hupd1], ?_, ?_, fun _ => hitems.symm⟩, ?_, hposPart⟩
      · rw [hitems, removeFirstSku_of_none sl.items sku hfx]
      · rw [hupd1]
        exact hitems
      · rw [hupd1, hupd1]

/-- Witness for C5 on the reachable state where customer 0 holds SKU
101 with quantity 2. -/
theorem set_semantics_witness :
    (∃ sl2, (update_list (update_list initialClientState 101 2 0 "add").2 101 0 0 "set").1
        = .ok sl2
      ∧ sl2.items = removeFirstSku
          (customerItems (update_list initialClientState 101 2 0 "add").2 0) 101
      ∧ customerItems
          (update_list (update_list initialClientState 101 2 0 "add").2 101 0 0 "set").2 0
        = sl2.items
      ∧ (findItem (customerItems (update_list initialClientState 101 2 0 "add").2 0) 101
            = none →
          sl2.items = customerItems (update_list initialClientState 101 2 0 "add").2 0)) ∧
    ((update_list
        (update_list (update_list initialClientState 101 2 0 "add").2 101 0 0 "set").2
        101 0 0 "set").2
      = (update_list (update_list initialClientState 101 2 0 "add").2 101 0 0 "set").2) ∧
    (∀ q : Int, 0 < q → ∃ sl2,
      (update_list (update_list initialClientState 101 2 0 "add").2 101 q 0 "set").1
        = .ok sl2
      ∧ findQty sl2.items 101 = some q
      ∧ customerItems
          (update_list (update_list initialClientState 101 2 0 "add").2 101 q 0 "set").2 0
        = sl2.items) :=
  set_semantics (update_list initialClientState 101 2 0 "add").2 101 0
    ⟨101, "Apple", 7/2⟩
    (Reach.update initialClientState 101 2 0 "add" Reach.init)
    (by decide)
    (by simp [initialClientState, initialCatalog, update_list, validate_sku,
      validate_quantity, get_shopping_list, lookupAssoc, setAssoc, applyOperation, findItem])
    (by decide)

theorem lookupAssoc_setAssoc_self {α : Type} (l : List (Int × α)) (k : Int) (v : α) :
    lookupAssoc (setAssoc l k v) k = some v := by
  simp [lookupAssoc_setAssoc]

/-- C4: `update_list` with operation "add" is cumulative: over any
reachable state, for non-negative quantities q1 and q2 on a valid
customer id and catalog SKU, adding q1 and then q2 produces exactly the
same result and store state as a single add of q1 + q2. -/
theorem add_cumulative (st : ClientState) (sku q1 q2 c : Int) (item : CatalogItem)
    (hr : Reach st)
    (hs : 0 < sku) (hcat : lookupAssoc st.items sku = some item)
    (hq1 : 0 ≤ q1) (hq2 : 0 ≤ q2) (hc : 0 ≤ c) :
    update_list (update_list st sku q1 c "add").2 sku q2 c "add"
      = update_list st sku (q1 + q2) c "add" := by
  have hq12 : 0 ≤ q1 + q2 := add_nonneg hq1 hq2
  have key1 := update_list_eq st sku q1 c "add" item hs hq1 (by simp) hcat
  have key12 := update_list_eq st sku (q1 + q2) c "add" item hs hq12 (by simp) hcat
  cases hl : lookupAssoc st.shopping_lists c with
  | none =>
    have hget := get_shopping_list_of_none st c hc hl
    have ha1 : applyOperation ([] : List LineItem) sku q1 "add"
        = .ok [{ sku := sku, quantity := q1 }] := by
      simpa using applyOperation_add_none ([] : List LineItem) sku q1 rfl
    have ha12 : applyOperation ([] : List LineItem) sku (q1 + q2) "add"
        = .ok [{ sku := sku, quantity := q1 + q2 }] := by
      simpa using applyOperation_add_none ([] : List LineItem) sku (q1 + q2) rfl
    have hst2 : (update_list st sku q1 c "add").2
        = ⟨setAssoc st.shopping_lists c ⟨c, [{ sku := sku, quantity := q1 }]⟩,
           st.items⟩ := by
      rw [key1, hget]
      simp [ha1, setAssoc_setAssoc]
    rw [hst2]
    have hlB := lookupAssoc_setAssoc_self st.shopping_lists c
      (⟨c, [{ sku := sku, quantity := q1 }]⟩ : ShoppingList)
    have keyB := update_list_eq
      (⟨setAssoc st.shopping_lists c ⟨c, [{ sku := sku, quantity := q1 }]⟩,
        st.items⟩ : ClientState) sku q2 c "add" item hs hq2 (by simp) hcat
    have hgetB := get_shopping_list_of_some
      (⟨setAssoc st.shopping_lists c ⟨c, [{ sku := sku, quantity := q1 }]⟩,
        st.items⟩ : ClientState) c ⟨c, [{ sku := sku, quantity := q1 }]⟩ hc hlB
    have hfB : findItem [{ sku := sku, quantity := q1 }] sku
        = some { sku := sku, quantity := q1 } := by simp [findItem]
    have haB : applyOperation [{ sku := sku, quantity := q1 }] sku q2 "add"
        = .ok [{ sku := sku, quantity := q1 + q2 }] := by
      rw [applyOperation_add_some _ sku q2 _ hfB]
      rw [if_neg (not_lt.mpr hq12)]
      simp [replaceQtyFirst]
    rw [keyB, hgetB]
    rw [key12, hget]
    simp [haB, ha12, setAssoc_setAssoc]
  | some sl =>
    have hitems : customerItems st c = sl.items := by simp [customerItems, hl]
    have hget := get_shopping_list_of_some st c sl hc hl
    cases hfx : findItem sl.items sku with
    | none =>
      have ha1 : applyOperation sl.items sku q1 "add"
          = .ok (sl.items ++ [{ sku := sku, quantity := q1 }]) :=
        applyOperation_add_none sl.items sku q1 hfx
      have ha12 : applyOperation sl.items sku (q1 + q2) "add"
          = .ok (sl.items ++ [{ sku := sku, quantity := q1 + q2 }]) :=
        applyOperation_add_none sl.items sku (q1 + q2) hfx
      have hst2 : (update_list st sku q1 c "add").2
          = ⟨setAssoc st.shopping_lists c
              ⟨sl.list_id, sl.items ++ [{ sku := sku, quantity := q1 }]⟩,
             st.items⟩ := by
        rw [key1, hget]
        simp [ha1]
      rw [hst2]
      have hlB := lookupAssoc_setAssoc_self st.shopping_lists c
        (⟨sl.list_id, sl.items ++ [{ sku := sku, quantity := q1 }]⟩ : ShoppingList)
      have keyB := update_list_eq
        (⟨setAssoc st.shopping_lists c
            ⟨sl.list_id, sl.items ++ [{ sku := sku, quantity := q1 }]⟩,
          st.items⟩ : ClientState) sku q2 c "add" item hs hq2 (by simp) hcat
      have hgetB := get_shopping_list_of_some
        (⟨setAssoc st.shopping_lists c
            ⟨sl.list_id, sl.items ++ [{ sku := sku, quantity := q1 }]⟩,
          st.items⟩ : ClientState) c
        ⟨sl.list_id, sl.items ++ [{ sku := sku, quantity := q1 }]⟩ hc hlB
      have hfB : findItem (sl.items ++ [{ sku := sku, quantity := q1 }]) sku
          = some { sku := sku, quantity := q1 } :=
        findItem_append_of_none sl.items sku _ hfx rfl
      have haB : applyOperation (sl.items ++ [{ sku := sku, quantity := q1 }]) sku q2 "add"
          = .ok (sl.items ++ [{ sku := sku, quantity := q1 + q2 }]) := by
        rw [applyOperation_add_some _ sku q2 _ hfB]
        rw [if_neg (not_lt.mpr hq12)]
        rw [replaceQtyFirst_append_of_none sl.items sku q1 (q1 + q2) hfx]
      rw [keyB, hgetB]
      rw [key12, hget]
      simp [haB, ha12, setAssoc_setAssoc]
    | some ex =>
      have hexnn : 0 ≤ ex.quantity := by
        apply reach_qtyNonneg st hr c ex
        rw [hitems]
        exact findItem_mem sl.items sku ex hfx
      have hnn1 : ¬ ex.quantity + q1 < 0 := not_lt.mpr (add_nonneg hexnn hq1)
      have hnn2 : ¬ ex.quantity + q1 + q2 < 0 :=
        not_lt.mpr (add_nonneg (add_nonneg hexnn hq1) hq2)
      have hnn12 : ¬ ex.quantity + (q1 + q2) < 0 := not_lt.mpr (add_nonneg hexnn hq12)
      have ha1 : applyOperation sl.items sku q1 "add"
          = .ok (replaceQtyFirst sl.items sku (ex.quantity + q1)) := by
        rw [applyOperation_add_some sl.items sku q1 ex hfx, if_neg hnn1]
      have ha12 : applyOperation sl.items sku (q1 + q2) "add"
          = .ok (replaceQtyFirst sl.items sku (ex.quantity + (q1 + q2))) := by
        rw [applyOperation_add_some sl.items sku (q1 + q2) ex hfx, if_neg hnn12]
      have hst2 : (update_list st sku q1 c "add").2
          = ⟨setAssoc st.shopping_lists c
              ⟨sl.list_id, replaceQtyFirst sl.items sku (ex.quantity + q1)⟩,
             st.items⟩ := by
        rw [key1, hget]
        simp [ha1]
      rw [hst2]
      have hlB := lookupAssoc_setAssoc_self st.shopping_lists c
        (⟨sl.list_id, replaceQtyFirst sl.items sku (ex.quantity + q1)⟩ : ShoppingList)
      have keyB := update_list_eq
        (⟨setAssoc st.shopping_lists c
            ⟨sl.list_id, replaceQtyFirst sl.items sku (ex.quantity + q1)⟩,
          st.items⟩ : ClientState) sku q2 c "add" item hs hq2 (by simp) hcat
      have hgetB := get_shopping_list_of_some
        (⟨setAssoc st.shopping_lists c
            ⟨sl.list_id, replaceQtyFirst sl.items sku (ex.quantity + q1)⟩,
          st.items⟩ : ClientState) c
        ⟨sl.list_id, replaceQtyFirst sl.items sku (ex.quantity + q1)⟩ hc hlB
      have hfB : findItem (replaceQtyFirst sl.items sku (ex.quantity + q1)) sku
          = some { ex with quantity := ex.quantity + q1 } := by
        rw [findItem_replaceQtyFirst, hfx]
        rfl
      have haB : applyOperation (replaceQtyFirst sl.items sku (ex.quantity + q1)) sku q2 "add"
          = .ok (replaceQtyFirst sl.items sku (ex.quantity + q1 + q2)) := by
        rw [applyOperation_add_some _ sku q2 _ hfB]
        rw [if_neg hnn2]
        rw [replaceQtyFirst_replaceQtyFirst]
      rw [keyB, hgetB]
      rw [key12, hget]
      simp only [haB, ha12, setAssoc_setAssoc]
      rw [add_assoc]

/-- Witness for C4: the spec's own example add(101, 2) then add(101, 3)
equals a single add(101, 5) on the fresh store. -/
theorem add_cumulative_witness :
    update_list (update_list initialClientState 101 2 0 "add").2 101 3 0 "add"
      = update_list initialClientState 101 (2 + 3) 0 "add" :=
  add_cumulative initialClientState 101 2 3 0 ⟨101, "Apple", 7/2⟩ Reach.init
    (by decide)
    (by simp [initialClientState, initialCatalog, lookupAssoc])
    (by decide) (by decide) (by decide)
